import Mathlib

/-!
Verification of the Landing-Page-Outline-Generator core pipeline.

Shallow embedding of the two Python source files (`lg.py`, `app.py`):
strings are Lean `String` / `List Char`, Python exceptions are `Except String`,
external providers (SerpAPI, Firecrawl, OpenAI) are parameters giving the
outcome of each call.  The embedding follows the source on CPython ≥ 3.7
semantics (the runtime the repository targets: the `openai` v1 client it uses
requires ≥ 3.7.1); the one place this matters is noted at `safe_split`.
-/

namespace LGSpec

/-- Whitespace characters stripped by Python's `str.strip()` / matched by
regex `\s` (ASCII range, which is all the pipeline's delimiters use). -/
def isPySpace (c : Char) : Bool :=
  c = ' ' || c = '\t' || c = '\n' || c = '\r' || c = '\x0b' || c = '\x0c'

/-- Python `str.strip()` on a character list. -/
def pyStripChars (l : List Char) : List Char :=
  ((l.dropWhile isPySpace).reverse.dropWhile isPySpace).reverse

/-- Python `str.strip()`. -/
def pyStrip (s : String) : String := ⟨pyStripChars s.data⟩

/-- Case-sensitive "starts with" on character lists. -/
def startsWithCS : List Char → List Char → Bool
  | [], _ => true
  | _ :: _, [] => false
  | p :: ps, t :: ts => p == t && startsWithCS ps ts

/-- Case-insensitive (ASCII fold, re.IGNORECASE) "starts with". -/
def startsWithCI : List Char → List Char → Bool
  | [], _ => true
  | _ :: _, [] => false
  | p :: ps, t :: ts => p.toLower == t.toLower && startsWithCI ps ts

/-- Index (counting from `i`) of the first case-insensitive occurrence of
`pat` in `text`; `none` when `pat` occurs nowhere.  Models
`re.search` of an escaped literal compiled with `re.IGNORECASE`. -/
def ciFindFrom (pat : List Char) : List Char → Nat → Option Nat
  | [], i => if startsWithCI pat [] then some i else none
  | c :: ts, i =>
    if startsWithCI pat (c :: ts) then some i else ciFindFrom pat ts (i + 1)

/-- Model of `pattern.search(text, start)` for a literal case-insensitive pattern:
index of the first occurrence of `pat` at position ≥ `start`. -/
def ciSearchFrom (text pat : List Char) (start : Nat) : Option Nat :=
  (ciFindFrom pat (text.drop start) 0).map (· + start)

/-- The fallback delimiter of `safe_split` (`app.py` lines 199/210):
`delimiter.replace(":", "").strip()`. -/
def altDelim (d : List Char) : List Char :=
  pyStripChars (d.filter (fun c => c != ':'))

/-- One delimiter lookup of `safe_split` (`app.py` 196-203 resp. 207-213):
search for the literal delimiter case-insensitively, and if it is absent
retry with the colon-stripped delimiter; return the span (start, end) of the
match.  On CPython ≥ 3.7 `re.escape` no longer escapes `':'`, so the
`.replace(r'\:', r'\s*:?[\s]*')` in the source is a no-op and the first
pattern is exactly the escaped literal delimiter. -/
def findDelim (text d : List Char) (start : Nat) : Option (Nat × Nat) :=
  match ciSearchFrom text d start with
  | some i => some (i, i + d.length)
  | none =>
    let a := altDelim d
    match ciSearchFrom text a start with
    | some i => some (i, i + a.length)
    | none => none

/-- Function `safe_split` from `app.py` lines 193-221 on character lists: the body is
`text[match1.end() : match2.start()].strip()`, with the document tail used
when the end delimiter is missing, and `""` when the start delimiter is
missing. -/
def safe_splitL (text d1 : List Char) (d2 : Option (List Char)) : List Char :=
  match findDelim text d1 0 with
  | none => []
  | some (_, e1) =>
    match d2 with
    | none => pyStripChars (text.drop e1)
    | some dd =>
      match findDelim text dd e1 with
      | none => pyStripChars (text.drop e1)
      | some (s2, _) => pyStripChars ((text.take s2).drop e1)

/-- Function `safe_split` from `app.py` on `String`. -/
def safe_split (text d1 : String) (d2 : Option String) : String :=
  ⟨safe_splitL text.data d1.data (d2.map String.data)⟩

/-- The fixed section table of `display_enhanced_outline` (`app.py` 90-101):
(name, start delimiter, optional end delimiter). -/
def sections : List (String × String × Option String) :=
  [ ("Meta Title", "Meta title:", some "Meta description:"),
    ("Meta Description", "Meta description:", some "Slug:"),
    ("Slug", "Slug:", some "Outline:"),
    ("H1", "H1:", some "Introduction:"),
    ("Introduction", "Introduction:", some "Section Breakdown:"),
    ("Section Breakdown", "Section Breakdown:", some "FAQ:"),
    ("FAQ", "FAQ:", some "Writing Guidelines:"),
    ("Writing Guidelines", "Writing Guidelines:", some "Landing Page Format Prediction:"),
    ("Landing Page Format", "Landing Page Format Prediction:", some "Justification:"),
    ("Justification", "Justification:", none) ]

/-- Section extraction over a row table: each row whose `safe_split` body is
empty is skipped (`if not content: continue`, `app.py` 107-110), every other
row contributes its (name, body) pair in table order. -/
def listSectionsAux (doc : String) (rows : List (String × String × Option String)) :
    List (String × String) :=
  rows.filterMap (fun r =>
    let c := safe_split doc r.2.1 r.2.2
    if c = "" then none else some (r.1, c))

/-- Function `listSections`: the ordered name → body mapping that
`display_enhanced_outline` extracts from an outline document. -/
def listSections (doc : String) : List (String × String) :=
  listSectionsAux doc sections

/-! Content Analyzer (`lg.py` 109-125, 369-421) -/

/-- Characters matched by regex `\w` (ASCII range used by the pipeline). -/
def isWordChar (c : Char) : Bool := c.isAlphanum || c = '_'

/-- Characters matched by the phrase class `[\w\s]`. -/
def isPhraseChar (c : Char) : Bool := isWordChar c || isPySpace c

/-- Maximal runs of characters satisfying `keep` (`cur` accumulates the
run in progress, reversed). -/
def tokenRunsAcc (keep : Char → Bool) : List Char → List Char → List (List Char)
  | [], cur => if cur.isEmpty then [] else [cur.reverse]
  | c :: rest, cur =>
    if keep c then tokenRunsAcc keep rest (c :: cur)
    else if cur.isEmpty then tokenRunsAcc keep rest []
    else cur.reverse :: tokenRunsAcc keep rest []

/-- Maximal runs of characters satisfying `keep`, in order, empties dropped.
With `keep := isWordChar` this is `re.findall(r'\b\w+\b', ...)`; with
`keep := fun c => !(isPySpace c)` it is Python's no-argument `str.split()`. -/
def tokenRuns (keep : Char → Bool) (l : List Char) : List (List Char) :=
  tokenRunsAcc keep l []

/-- Tag-stripping scanner: `inTag` records whether the scan is inside a
`<...>` tag (whose characters are skipped up to the closing `'>'`). -/
def stripTagsAcc : Bool → List Char → List Char
  | _, [] => []
  | true, c :: rest =>
    if c = '>' then stripTagsAcc false rest else stripTagsAcc true rest
  | false, c :: rest =>
    if c = '<' then stripTagsAcc true rest else c :: stripTagsAcc false rest

/-- Model of `BeautifulSoup(content, 'html.parser').get_text()`: the markup
with every `<...>` tag removed (the identity on plain text). -/
def stripTags (l : List Char) : List Char := stripTagsAcc false l

/-- Line `text_content = soup.get_text() if soup.get_text() else content`
(`lg.py` line 113): the tag-stripped text, or the raw content when
stripping yields the (falsy) empty string. -/
def getTextOf (content : String) : String :=
  let t : String := ⟨stripTags content.data⟩
  if t = "" then content else t

/-- Previous/next word-character test for `\b` boundaries: a position is a
boundary when exactly one of its neighbours is a word character; off the
ends of the string counts as non-word. -/
def wordOpt : Option Char → Bool
  | some c => isWordChar c
  | none => false

/-- Trailing `\b` test after consuming `k ≥ 1` characters of `rest`. -/
def phraseTail (rest : List Char) (k : Nat) : Bool :=
  wordOpt rest[k - 1]? != wordOpt rest[k]?

/-- Backtracking step of the greedy bounded repetition `[\w\s]{10,30}`
followed by `\b`: the largest `k` with `10 ≤ k ≤ bound` whose trailing
boundary test holds. -/
def tryPhraseLen (rest : List Char) : Nat → Option Nat
  | 0 => none
  | k + 1 =>
    if k + 1 < 10 then none
    else if phraseTail rest (k + 1) then some (k + 1)
    else tryPhraseLen rest k

/-- Scanner for `re.findall(r'\b[\w\s]{10,30}\b', s)`: at each position with
a leading word boundary, match greedily (backtracking on the trailing
boundary); on success continue after the match, otherwise advance one
character.  `fuel` is an upper bound on the number of steps; every call
consumes at least one character, so `s.length + 1` fuel is always enough. -/
def phraseScan (fuel : Nat) (prevWord : Bool) (rest : List Char) : List (List Char) :=
  match fuel with
  | 0 => []
  | fuel + 1 =>
    let step : List (List Char) :=
      match rest with
      | [] => []
      | c :: t => phraseScan fuel (isWordChar c) t
    if prevWord != wordOpt rest[0]? then
      match tryPhraseLen rest (min (rest.takeWhile isPhraseChar).length 30) with
      | some k => rest.take k :: phraseScan fuel (wordOpt rest[k - 1]?) (rest.drop k)
      | none => step
    else step

/-- All matches of `re.findall(r'\b[\w\s]{10,30}\b', s)`. -/
def commonPhraseMatches (s : List Char) : List (List Char) :=
  phraseScan (s.length + 1) false s

/-- One `Counter` update: bump the count of `x`, preserving first-insertion
order (CPython ≥ 3.7 dicts preserve insertion order). -/
def bumpCount [BEq α] (x : α) : List (α × Nat) → List (α × Nat)
  | [] => [(x, 1)]
  | (y, n) :: rest => if x == y then (y, n + 1) :: rest else (y, n) :: bumpCount x rest

/-- Model of `collections.Counter(l)` as an insertion-ordered association list. -/
def countItems [BEq α] (l : List α) : List (α × Nat) :=
  l.foldl (fun acc x => bumpCount x acc) []

/-- Stable insertion for a descending-by-count sort: `x` (the earlier
element) is placed before the first entry whose count does not exceed it,
so equal counts keep their first-encountered order. -/
def insertByCount (x : α × Nat) : List (α × Nat) → List (α × Nat)
  | [] => [x]
  | y :: rest => if y.2 ≤ x.2 then x :: y :: rest else y :: insertByCount x rest

/-- Stable sort by descending count (insertion sort). -/
def sortByCountDesc : List (α × Nat) → List (α × Nat)
  | [] => []
  | x :: rest => insertByCount x (sortByCountDesc rest)

/-- Model of `Counter(l).most_common(n)` keys: stable sort by descending count
(`heapq.nlargest` is documented equivalent to a stable reverse sort),
first `n` entries. -/
def mostCommon [BEq α] (l : List α) (n : Nat) : List α :=
  ((sortByCountDesc (countItems l)).take n).map (·.1)

/-- Python `str.lower()` (ASCII fold). -/
def lowerChars (l : List Char) : List Char := l.map Char.toLower

/-- Pure body of `extract_common_phrases` (`lg.py` 372-376). -/
def common_phrases_core (text : String) : List String :=
  (mostCommon (commonPhraseMatches (lowerChars text.data)) 10).map
    (fun p => (⟨p⟩ : String))

/-- Pure body of `extract_key_topics` (`lg.py` 398-402). -/
def key_topics_core (text : String) : List String :=
  (mostCommon (tokenRuns isWordChar (lowerChars text.data)) 10).map
    (fun p => (⟨p⟩ : String))

/-- Python `str.split(sep)` with a non-empty separator: splits at every
occurrence, keeping empty pieces (so `"".split(sep) = [""]`).  `fuel`
bounds the number of scan steps; each step consumes at least one character,
so `s.length + 1` is always enough. -/
def splitSepGo (sep : List Char) : Nat → List Char → List Char → List (List Char)
  | 0, s, acc => [acc.reverse ++ s]
  | _ + 1, [], acc => [acc.reverse]
  | fuel + 1, c :: rest, acc =>
    if startsWithCS sep (c :: rest) then
      acc.reverse :: splitSepGo sep fuel (rest.drop (sep.length - 1)) []
    else splitSepGo sep fuel rest (c :: acc)

/-- Python `str.split(sep)`. -/
def splitSep (sep s : List Char) : List (List Char) :=
  splitSepGo sep (s.length + 1) s []

/-- The `structure` record of `analyze_content_structure` (`lg.py` 385-389). -/
structure ContentStructure where
  total_paragraphs : Nat
  avg_paragraph_length : ℚ
deriving DecidableEq, Repr

/-- Element counts of `identify_content_elements` (`lg.py` 410-417). -/
structure ContentElements where
  lists : Nat
  tables : Nat
  images : Nat
  links : Nat
  headings : Nat
deriving DecidableEq, Repr

/-- The analysis dict built by `analyze_content` (`lg.py` 115-121).  The two
sub-dicts are `Option`s because their extractors degrade to the empty dict
`{}` on an internal error. -/
structure ContentAnalysis where
  word_count : Nat
  common_phrases : List String
  content_structure : Option ContentStructure
  key_topics : List String
  content_elements : Option ContentElements
deriving DecidableEq, Repr

/-- Pure body of `analyze_content_structure` (`lg.py` 384-389): split the
text into paragraphs on blank lines, record their number and mean word
count (the Python float division is modelled exactly on `ℚ`). -/
def analyze_structure_core (text : String) : ContentStructure :=
  let paragraphs := splitSep ['\n', '\n'] text.data
  { total_paragraphs := paragraphs.length,
    avg_paragraph_length :=
      if paragraphs = [] then 0
      else ((paragraphs.map (fun p => ((tokenRuns (fun c => !(isPySpace c)) p).length : ℚ))).sum)
             / (paragraphs.length : ℚ) }

/-- Tag names opened in the markup: for every `'<'`, the following
alphanumeric run, lower-cased (so closing tags `</...>` contribute the empty
name and match no element).  Models the elements `soup.find_all` counts. -/
def tagNames : List Char → List (List Char)
  | [] => []
  | c :: rest =>
    if c = '<' then lowerChars (rest.takeWhile Char.isAlphanum) :: tagNames rest
    else tagNames rest

/-- Number of opened tags whose name is one of `targets`. -/
def countTag (names : List (List Char)) (targets : List String) : Nat :=
  names.countP (fun n => targets.any (fun t => n == t.data))

/-- Pure body of `identify_content_elements` (`lg.py` 410-417). -/
def identify_elements_core (content : String) : ContentElements :=
  let names := tagNames content.data
  { lists := countTag names ["ul", "ol"],
    tables := countTag names ["table"],
    images := countTag names ["img"],
    links := countTag names ["a"],
    headings := countTag names ["h1", "h2", "h3", "h4", "h5", "h6"] }

/-- Which internal computations of the analyzer raise: each flag stands for
an exception in the corresponding `try` block of the source. -/
structure AnalyzerFaults where
  soupFail : Bool
  phrasesFail : Bool
  structFail : Bool
  topicsFail : Bool
  elementsFail : Bool

/-- The fault assignment of a run where nothing raises. -/
def noFaults : AnalyzerFaults := ⟨false, false, false, false, false⟩

/-- Python `try: return v-computation except: return d`. -/
def tryDefault (d : α) (c : Except String α) : α :=
  match c with
  | .ok a => a
  | .error _ => d

/-- A computation that raises exactly when its fault flag is set. -/
def raiseIf (fail : Bool) (msg : String) (v : α) : Except String α :=
  if fail then .error msg else .ok v

/-- Function `extract_common_phrases` (`lg.py` 369-379): degrades to `[]` on error. -/
def extract_common_phrases (fail : Bool) (text : String) : List String :=
  tryDefault [] (raiseIf fail "phrase extraction error" (common_phrases_core text))

/-- Function `analyze_content_structure` (`lg.py` 381-393): degrades to `{}` on error. -/
def analyze_content_structure (fail : Bool) (text : String) : Option ContentStructure :=
  tryDefault none (raiseIf fail "structure analysis error" (some (analyze_structure_core text)))

/-- Function `extract_key_topics` (`lg.py` 395-405): degrades to `[]` on error. -/
def extract_key_topics (fail : Bool) (text : String) : List String :=
  tryDefault [] (raiseIf fail "topic extraction error" (key_topics_core text))

/-- Function `identify_content_elements` (`lg.py` 407-421): degrades to `{}` on error. -/
def identify_content_elements (fail : Bool) (content : String) : Option ContentElements :=
  tryDefault none (raiseIf fail "element identification error" (some (identify_elements_core content)))

/-- Function `analyze_content` (`lg.py` 109-125): strip markup (falling back to the
raw content when stripping is empty), then assemble the analysis dict; its
own `except` turns any exception from the body into the empty dict `none`.
The result type is `Except` because the caller would observe any exception
that escaped the handler. -/
def analyze_content (fl : AnalyzerFaults) (content : String) :
    Except String (Option ContentAnalysis) :=
  match raiseIf fl.soupFail "markup parsing error" (getTextOf content) with
  | .error _ => .ok none
  | .ok text =>
    .ok (some
      { word_count := (tokenRuns (fun c => !(isPySpace c)) text.data).length,
        common_phrases := extract_common_phrases fl.phrasesFail text,
        content_structure := analyze_content_structure fl.structFail text,
        key_topics := extract_key_topics fl.topicsFail text,
        content_elements := identify_content_elements fl.elementsFail content })

/-- The value `analyze_content` returns, as a function. -/
def analyzeResult (fl : AnalyzerFaults) (content : String) : Option ContentAnalysis :=
  if fl.soupFail then none
  else
    let text := getTextOf content
    some
      { word_count := (tokenRuns (fun c => !(isPySpace c)) text.data).length,
        common_phrases := extract_common_phrases fl.phrasesFail text,
        content_structure := analyze_content_structure fl.structFail text,
        key_topics := extract_key_topics fl.topicsFail text,
        content_elements := identify_content_elements fl.elementsFail content }

theorem analyze_content_eq (fl : AnalyzerFaults) (content : String) :
    analyze_content fl content = .ok (analyzeResult fl content) := by
  cases h : fl.soupFail <;> simp [analyze_content, analyzeResult, raiseIf, h]

/-! Outline Synthesizer (`lg.py` 127-142, 144-266, 348-367) -/

/-- Python `s.replace(target, repl)`: non-overlapping left-to-right
replacement (the empty-target case, which Python treats specially, never
occurs in the source: the targets are `"**"` and `"*"`).  `fuel` bounds the
scan; each step consumes at least one character, so `s.length + 1` is
always enough. -/
def pyReplaceGo (target repl : List Char) : Nat → List Char → List Char
  | 0, s => s
  | _ + 1, [] => []
  | fuel + 1, c :: rest =>
    if startsWithCS target (c :: rest) && !target.isEmpty then
      repl ++ pyReplaceGo target repl fuel (rest.drop (target.length - 1))
    else c :: pyReplaceGo target repl fuel rest

/-- Python `s.replace(target, repl)` on character lists. -/
def pyReplace (target repl s : List Char) : List Char :=
  pyReplaceGo target repl (s.length + 1) s

/-- Python `s.replace(target, repl)` on `String`. -/
def pyReplaceStr (s target repl : String) : String :=
  ⟨pyReplace target.data repl.data s.data⟩

/-- Python `needle in hay` for strings. -/
def isSubstr (needle : List Char) : List Char → Bool
  | [] => startsWithCS needle []
  | c :: t => startsWithCS needle (c :: t) || isSubstr needle t

/-- Function `get_llm_analysis` (`lg.py` 127-142): the chat-completion call is a
parameter giving either the response text or the raised exception; the
`except` clause turns an exception into the empty string. -/
def get_llm_analysis (llmOutcome : Except String String) : String :=
  match llmOutcome with
  | .ok s => s
  | .error _ => ""

/-- Function `analyze_with_llm` (`lg.py` 144-266): one prompt per aspect — the
canonical table has exactly the `'outline_structure'` aspect — and the
aspect's key is always inserted into the analysis dict, holding whatever
`get_llm_analysis` returned (possibly `""`). -/
def analyze_with_llm (llmOutcome : Except String String) : List (String × String) :=
  [("outline_structure", get_llm_analysis llmOutcome)]

/-- The diagnostic default of `format_llm_outline` (`lg.py` line 352). -/
def noOutlineSignal : String := "No outline structure generated"

/-- Function `format_llm_outline` (`lg.py` 348-364): look up the
`'outline_structure'` key (the signal text is `dict.get`'s default, used
only when the key is absent), strip `**` then `*`, wrap in the
`Meta Information:` / `END` envelope and `strip()` it. -/
def format_llm_outline (llm_insights : List (String × String)) : String :=
  let outline_content := (llm_insights.lookup "outline_structure").getD noOutlineSignal
  let cleaned := pyReplaceStr (pyReplaceStr outline_content "**" "") "*" ""
  pyStrip ("\nMeta Information:\n" ++ cleaned ++ "\nEND\n")

/-! SERP Client (`lg.py` 423-449) -/

/-- Outcome of one `requests.get` call to the SERP provider. -/
inductive ReqOutcome (α : Type) where
  | success (data : α)
  | httpError (status : Nat) (body : String)
  | netError (msg : String)

/-- Observable events of the retry loop: provider calls and sleeps. -/
inductive SerpEvent where
  | call (attempt : Nat)
  | sleep (seconds : Nat)
deriving DecidableEq, Repr

/-- Constant `max_retries = 3` (`lg.py` line 434). -/
def max_retries : Nat := 3

def ReqOutcome.isFailure : ReqOutcome α → Bool
  | .success _ => false
  | _ => true

def ReqOutcome.isNetError : ReqOutcome α → Bool
  | .netError _ => true
  | _ => false

/-- The `for attempt in range(max_retries)` loop of `get_search_results`
(`lg.py` 435-449): a 200 response returns its payload; a non-success status
just prints and loops (no sleep); a network error (`RequestException`)
returns `None` on the last attempt and otherwise sleeps 2 seconds and
loops.  Falling off the loop returns `None`. -/
def serpLoop (p : Nat → ReqOutcome α) : Nat → Nat → Option α × List SerpEvent
  | _, 0 => (none, [])
  | attempt, fuel + 1 =>
    match p attempt with
    | .success d => (some d, [SerpEvent.call attempt])
    | .httpError _ _ =>
      let r := serpLoop p (attempt + 1) fuel
      (r.1, SerpEvent.call attempt :: r.2)
    | .netError _ =>
      if attempt == max_retries - 1 then (none, [SerpEvent.call attempt])
      else
        let r := serpLoop p (attempt + 1) fuel
        (r.1, SerpEvent.call attempt :: SerpEvent.sleep 2 :: r.2)

/-- Function `get_search_results` (`lg.py` 423-449), instrumented with its event
trace; the provider is a function from attempt number to call outcome. -/
def get_search_results (p : Nat → ReqOutcome α) : Option α × List SerpEvent :=
  serpLoop p 0 max_retries

/-- The attempt numbers of the provider calls in a trace. -/
def callsOf (evs : List SerpEvent) : List Nat :=
  evs.filterMap (fun e =>
    match e with
    | .call n => some n
    | .sleep _ => none)

/-- The number of sleeps in a trace. -/
def sleepCount (evs : List SerpEvent) : Nat :=
  evs.countP (fun e =>
    match e with
    | .sleep _ => true
    | .call _ => false)

/-! Content Scraper (`lg.py` 64-107) -/

/-- Shape of a Firecrawl `scrape_url` response: each requested format is a
dict key that may be absent (`none`). -/
structure ScrapeResponse where
  markdown : Option String
  html : Option String

/-- The per-URL dict appended to `scraped_content` (`lg.py` 87-91). -/
structure PageData where
  url : String
  content : String
  analysis : Option ContentAnalysis
deriving DecidableEq, Repr

/-- Line `result.get('html', result.get('markdown', ''))` (`lg.py` line 82):
the HTML value whenever the `html` key is present, else the markdown value,
else the empty string. -/
def contentOf (r : ScrapeResponse) : String :=
  match r.html with
  | some h => h
  | none => r.markdown.getD ""

/-- The body of one scrape attempt (`lg.py` 79-95): call the provider,
select the content, analyze it, and build the page dict; any exception
(from the provider call) escapes to the retry logic. -/
def scrapeAttemptOnce (outcome : Except String ScrapeResponse) (url : String) :
    Except String PageData :=
  match outcome with
  | .error e => .error e
  | .ok r =>
    match analyze_content noFaults (contentOf r) with
    | .error e => .error e
    | .ok a => .ok { url := url, content := contentOf r, analysis := a }

/-- The `for attempt in range(max_retries)` retry loop of
`scrape_competitor_content` (`lg.py` 76-101): a successful attempt appends
the page and breaks; a failed last attempt gives up on the URL. -/
def scrapeLoop (p : String → Nat → Except String ScrapeResponse) (url : String) :
    Nat → Nat → Option PageData
  | _, 0 => none
  | attempt, fuel + 1 =>
    match scrapeAttemptOnce (p url attempt) url with
    | .ok pd => some pd
    | .error _ => scrapeLoop p url (attempt + 1) fuel

/-- The per-URL result of the scraper: `some` page or `none` after all
retries fail. -/
def scrapeOne (p : String → Nat → Except String ScrapeResponse) (url : String) :
    Option PageData :=
  scrapeLoop p url 0 max_retries

/-- Function `scrape_competitor_content` (`lg.py` 64-107): URLs are processed one at
a time in input order; a URL whose retries are exhausted contributes no
entry and processing continues with the next URL. -/
def scrape_competitor_content (p : String → Nat → Except String ScrapeResponse) :
    List String → List PageData
  | [] => []
  | url :: rest =>
    match scrapeOne p url with
    | some pd => pd :: scrape_competitor_content p rest
    | none => scrape_competitor_content p rest

/-! URL selection in the two entry points (`lg.py` 482-485, `app.py` 281-286) -/

/-- One entry of `serp_data['organic_results']` as read by the two
`main` flows (only the `link` key is accessed there). -/
structure OrganicResult where
  title : String
  link : String
  snippet : String
  displayed_link : String
  position : Nat

/-- The batch/offline flow's scrape list (`lg.py` 482-485):
`[result['link'] for result in serp_data.get('organic_results', [])[:5]]`. -/
def urls_to_scrape_batch (organic : List OrganicResult) : List String :=
  (organic.take 5).map OrganicResult.link

/-- The domain block-list of the UI flow (`app.py` line 285). -/
def bannedDomains : List String :=
  ["youtube.com", "reddit.com", "twitter.com", "facebook.com"]

/-- Test `any(domain in result['link'].lower() for domain in [...])`. -/
def linkBanned (link : String) : Bool :=
  bannedDomains.any (fun d => isSubstr d.data (lowerChars link.data))

/-- The UI flow's scrape list (`app.py` 281-286): the top-5 organic links
with block-listed domains filtered out. -/
def urls_to_scrape_ui (organic : List OrganicResult) : List String :=
  ((organic.take 5).filter (fun r => !linkBanned r.link)).map OrganicResult.link

/-! Helper lemmas -/

theorem scrape_eq_filterMap (p : String → Nat → Except String ScrapeResponse) :
    ∀ urls : List String,
      scrape_competitor_content p urls = urls.filterMap (scrapeOne p) := by
  intro urls
  induction urls with
  | nil => rfl
  | cons u rest ih =>
    rw [scrape_competitor_content, List.filterMap_cons]
    cases h : scrapeOne p u <;> simp [h, ih]

theorem scrapeAttemptOnce_url (o : Except String ScrapeResponse) (url : String)
    (pd : PageData) (h : scrapeAttemptOnce o url = .ok pd) : pd.url = url := by
  cases o with
  | error e => simp [scrapeAttemptOnce] at h
  | ok r =>
    rw [scrapeAttemptOnce, analyze_content_eq] at h
    simp only [Except.ok.injEq] at h
    rw [← h]

theorem scrapeLoop_url (p : String → Nat → Except String ScrapeResponse) (url : String) :
    ∀ (f a : Nat) (pd : PageData), scrapeLoop p url a f = some pd → pd.url = url := by
  intro f
  induction f with
  | zero => intro a pd h; simp [scrapeLoop] at h
  | succ f ih =>
    intro a pd h
    rw [scrapeLoop] at h
    cases ho : scrapeAttemptOnce (p url a) url with
    | error e => rw [ho] at h; exact ih _ _ h
    | ok pd' =>
      rw [ho] at h
      simp only [Option.some.injEq] at h
      rw [← h]
      exact scrapeAttemptOnce_url _ _ _ ho

theorem scrapeOne_url (p : String → Nat → Except String ScrapeResponse)
    (url : String) (pd : PageData) (h : scrapeOne p url = some pd) : pd.url = url :=
  scrapeLoop_url p url max_retries 0 pd h

theorem scrape_urls_sublist (p : String → Nat → Except String ScrapeResponse) :
    ∀ urls : List String,
      ((scrape_competitor_content p urls).map PageData.url).Sublist urls := by
  intro urls
  induction urls with
  | nil => simp [scrape_competitor_content]
  | cons u rest ih =>
    rw [scrape_competitor_content]
    cases h : scrapeOne p u with
    | none => exact ih.cons u
    | some pd =>
      rw [List.map_cons, scrapeOne_url p u pd h]
      exact ih.cons₂ u

theorem startsWithCI_of_append (p q : List Char) :
    ∀ t : List Char, startsWithCI (p ++ q) t = true → startsWithCI p t = true := by
  induction p with
  | nil => intro t _; rfl
  | cons x xs ih =>
    intro t h
    cases t with
    | nil => simp [startsWithCI] at h
    | cons y ys =>
      simp only [List.cons_append, startsWithCI, Bool.and_eq_true] at h ⊢
      exact ⟨h.1, ih ys h.2⟩

theorem ciFindFrom_append_none (p q : List Char) :
    ∀ (t : List Char) (i : Nat),
      ciFindFrom p t i = none → ciFindFrom (p ++ q) t i = none := by
  intro t
  induction t with
  | nil =>
    intro i h
    simp only [ciFindFrom] at h ⊢
    by_cases hs : startsWithCI p [] = true
    · rw [if_pos hs] at h; exact absurd h (by simp)
    · have hpq : startsWithCI (p ++ q) [] = false := by
        cases hpq : startsWithCI (p ++ q) [] with
        | false => rfl
        | true => exact absurd (startsWithCI_of_append p q [] hpq) hs
      rw [hpq]
      simp
  | cons c ts ih =>
    intro i h
    simp only [ciFindFrom] at h ⊢
    by_cases hs : startsWithCI p (c :: ts) = true
    · rw [if_pos hs] at h; exact absurd h (by simp)
    · rw [if_neg hs] at h
      have hpq : startsWithCI (p ++ q) (c :: ts) = false := by
        cases hpq : startsWithCI (p ++ q) (c :: ts) with
        | false => rfl
        | true => exact absurd (startsWithCI_of_append p q _ hpq) hs
      rw [hpq]
      simp only [Bool.false_eq_true, if_false]
      exact ih (i + 1) h

theorem ciSearchFrom_append_none (text p q : List Char)
    (h : ciSearchFrom text p 0 = none) : ciSearchFrom text (p ++ q) 0 = none := by
  rw [ciSearchFrom] at h ⊢
  rw [Option.map_eq_none'] at h ⊢
  exact ciFindFrom_append_none p q _ 0 h

theorem lookup_listSectionsAux_none (doc name : String) :
    ∀ rows : List (String × String × Option String),
      (∀ r ∈ rows, r.1 = name → safe_split doc r.2.1 r.2.2 = "") →
      (listSectionsAux doc rows).lookup name = none := by
  intro rows
  induction rows with
  | nil => intro _; rfl
  | cons r rest ih =>
    intro h
    rw [listSectionsAux, List.filterMap_cons]
    by_cases hc : safe_split doc r.2.1 r.2.2 = ""
    · rw [if_pos hc]
      exact ih (fun r' hr' => h r' (List.mem_cons_of_mem r hr'))
    · rw [if_neg hc]
      have hne : r.1 ≠ name := fun he => hc (h r (List.mem_cons_self r rest) he)
      rw [List.lookup]
      have : (name == r.1) = false := beq_eq_false_iff_ne.mpr (Ne.symm hne)
      rw [this]
      exact ih (fun r' hr' => h r' (List.mem_cons_of_mem r hr'))

/-! Claim theorems -/

/-- C1, counterexample.  With an LLM capability that raises, the synthesized
document is the bare `Meta Information:` / `END` envelope with an empty
body; the signal text `'No outline structure generated'` does NOT appear in
it, contrary to the claim: `analyze_with_llm` always inserts the
`'outline_structure'` key (holding `""` on failure), so `dict.get`'s
default — the only source of the signal text — is never used. -/
theorem C1_counterexample :
    format_llm_outline (analyze_with_llm (Except.error "LLM timeout"))
      = "Meta Information:\n\nEND"
    ∧ isSubstr noOutlineSignal.data
        (format_llm_outline (analyze_with_llm (Except.error "LLM timeout"))).data = false :=
  ⟨rfl, rfl⟩

/-- C1, amended.  When the LLM capability raises or returns an empty
response, the synthesizer stores the empty string for the
`'outline_structure'` aspect rather than raising, and the final document is
the envelope `"Meta Information:\n\nEND"` with an empty body and WITHOUT
the signal text; the signal text `'No outline structure generated'`
surfaces only when the `'outline_structure'` key is absent from the
insights mapping, a mapping the pipeline itself never produces. -/
theorem C1_llm_failure_empty_not_signalled (e : String) :
    (analyze_with_llm (Except.error e)).lookup "outline_structure" = some ""
    ∧ format_llm_outline (analyze_with_llm (Except.error e)) = "Meta Information:\n\nEND"
    ∧ (analyze_with_llm (Except.ok "")).lookup "outline_structure" = some ""
    ∧ format_llm_outline (analyze_with_llm (Except.ok "")) = "Meta Information:\n\nEND"
    ∧ isSubstr noOutlineSignal.data
        (format_llm_outline (analyze_with_llm (Except.error e))).data = false
    ∧ isSubstr noOutlineSignal.data (format_llm_outline []).data = true :=
  ⟨rfl, rfl, rfl, rfl, rfl, rfl⟩

/-- Demo document for C2: upper-case delimiters. -/
def ciDemoDoc : String := "META TITLE: Hello\nMETA DESCRIPTION: World"

/-- Demo document for C2: start delimiter lacks its trailing colon. -/
def colonlessDemoDoc : String := "Meta title Hello\nMeta description: World"

/-- Demo document for C2: whitespace between the phrase and its colon. -/
def spacedColonDemoDoc : String := "Meta title  : Hello\nMeta description: World"

/-- Demo document for C2: no FAQ delimiter in any tolerated form. -/
def noFaqDoc : String := "Meta title: X\nMeta description: Y"

/-- C2.  Section-start matching is case-insensitive and tolerant of an
optional trailing colon and of whitespace around it (the colon-stripped
retry catches the colon-less and spaced forms); a delimiter found in
neither its exact nor its colon-stripped form makes `safe_split` return the
empty body, so the section is skipped and never an error; in particular a
document containing no case-insensitive occurrence of `"FAQ"` yields a
section mapping without the `"FAQ"` key. -/
theorem C2_delimiter_tolerance (doc : String)
    (hfaq : ciSearchFrom doc.data "FAQ".data 0 = none) :
    (listSections doc).lookup "FAQ" = none
    ∧ (∀ (d1 : String) (d2 : Option String),
        ciSearchFrom doc.data d1.data 0 = none →
        ciSearchFrom doc.data (altDelim d1.data) 0 = none →
        safe_split doc d1 d2 = "")
    ∧ (listSections ciDemoDoc).lookup "Meta Title" = some "Hello"
    ∧ ((listSections colonlessDemoDoc).lookup "Meta Title").isSome = true
    ∧ ((listSections spacedColonDemoDoc).lookup "Meta Title").isSome = true := by
  have hsplit : ∀ (d1 : String) (d2 : Option String),
      ciSearchFrom doc.data d1.data 0 = none →
      ciSearchFrom doc.data (altDelim d1.data) 0 = none →
      safe_split doc d1 d2 = "" := by
    intro d1 d2 h1 h2
    have hfd : findDelim doc.data d1.data 0 = none := by
      simp [findDelim, h1, h2]
    simp [safe_split, safe_splitL, hfd]
  refine ⟨?_, hsplit, rfl, rfl, rfl⟩
  have hexact : ciSearchFrom doc.data ("FAQ:").data 0 = none := by
    have hd : ("FAQ:").data = "FAQ".data ++ [':'] := rfl
    rw [hd]
    exact ciSearchFrom_append_none _ _ _ hfaq
  have halt : ciSearchFrom doc.data (altDelim ("FAQ:").data) 0 = none := by
    have hd : altDelim ("FAQ:").data = "FAQ".data := rfl
    rw [hd]
    exact hfaq
  have hempty : safe_split doc "FAQ:" (some "Writing Guidelines:") = "" :=
    hsplit "FAQ:" (some "Writing Guidelines:") hexact halt
  apply lookup_listSectionsAux_none
  intro r hr hname
  fin_cases hr
  · exact absurd hname (by decide)
  · exact absurd hname (by decide)
  · exact absurd hname (by decide)
  · exact absurd hname (by decide)
  · exact absurd hname (by decide)
  · exact absurd hname (by decide)
  · exact hempty
  · exact absurd hname (by decide)
  · exact absurd hname (by decide)
  · exact absurd hname (by decide)

/-- C2, witness: a concrete document with no FAQ delimiter omits the
`"FAQ"` key. -/
theorem C2_delimiter_tolerance_witness :
    (listSections noFaqDoc).lookup "FAQ" = none :=
  (C2_delimiter_tolerance noFaqDoc rfl).1

/-- A SERP provider whose every call returns HTTP 500. -/
def alwaysHttp500 : Nat → ReqOutcome String :=
  fun _ => ReqOutcome.httpError 500 "Internal Server Error"

/-- C3, counterexample.  A provider that always answers with a non-success
HTTP status is called three times with NO sleep between the attempts: the
fixed 2-second delay exists only on the network-error (`RequestException`)
path, contrary to the claim that it follows every non-success status. -/
theorem C3_counterexample :
    get_search_results alwaysHttp500
      = (none, [SerpEvent.call 0, SerpEvent.call 1, SerpEvent.call 2])
    ∧ sleepCount (get_search_results alwaysHttp500).2 = 0 :=
  ⟨rfl, rfl⟩

/-- C3, amended.  The SERP fetch makes at most 3 provider attempts; an
always-failing provider is called exactly 3 times (attempts 0, 1, 2) and
the function then returns `None` rather than letting an exception escape;
the fixed 2-second delay is inserted only after a network-error attempt
that is not the last one — a non-success HTTP status retries immediately
with no delay. -/
theorem C3_retry_bound {α : Type} (p : Nat → ReqOutcome α)
    (hf : ∀ n, n < 3 → (p n).isFailure = true) :
    (get_search_results p).1 = none
    ∧ callsOf (get_search_results p).2 = [0, 1, 2]
    ∧ sleepCount (get_search_results p).2 =
        ((if (p 0).isNetError = true then 1 else 0)
          + (if (p 1).isNetError = true then 1 else 0))
    ∧ (∀ q : Nat → ReqOutcome α, (callsOf (get_search_results q).2).length ≤ 3) := by
  have f0 := hf 0 (by omega)
  have f1 := hf 1 (by omega)
  have f2 := hf 2 (by omega)
  have hq : ∀ q : Nat → ReqOutcome α, (callsOf (get_search_results q).2).length ≤ 3 := by
    intro q
    rcases g0 : q 0 with ⟨d⟩ | ⟨s, b⟩ | ⟨m⟩ <;> rcases g1 : q 1 with ⟨d1⟩ | ⟨s1, b1⟩ | ⟨m1⟩ <;>
      rcases g2 : q 2 with ⟨d2⟩ | ⟨s2, b2⟩ | ⟨m2⟩ <;>
      simp [get_search_results, serpLoop, max_retries, callsOf, g0, g1, g2]
  have main : (get_search_results p).1 = none
      ∧ callsOf (get_search_results p).2 = [0, 1, 2]
      ∧ sleepCount (get_search_results p).2 =
          ((if (p 0).isNetError = true then 1 else 0)
            + (if (p 1).isNetError = true then 1 else 0)) := by
    rcases h0 : p 0 with ⟨d⟩ | ⟨s, b⟩ | ⟨m⟩
    · rw [h0] at f0; simp [ReqOutcome.isFailure] at f0
    all_goals rcases h1 : p 1 with ⟨d1⟩ | ⟨s1, b1⟩ | ⟨m1⟩
    all_goals try (rw [h1] at f1; simp [ReqOutcome.isFailure] at f1)
    all_goals rcases h2 : p 2 with ⟨d2⟩ | ⟨s2, b2⟩ | ⟨m2⟩
    all_goals try (rw [h2] at f2; simp [ReqOutcome.isFailure] at f2)
    all_goals refine ⟨?_, ?_, ?_⟩ <;>
      simp [get_search_results, serpLoop, max_retries, callsOf, sleepCount,
        ReqOutcome.isNetError, h0, h1, h2]
  exact ⟨main.1, main.2.1, main.2.2, hq⟩

/-- A SERP provider whose every call raises a network error. -/
def alwaysNetDown : Nat → ReqOutcome String :=
  fun _ => ReqOutcome.netError "connection refused"

/-- C3, witness: the always-network-failing provider is called exactly 3
times, sleeps twice, and the function returns `None`. -/
theorem C3_retry_bound_witness :
    (get_search_results alwaysNetDown).1 = none
    ∧ callsOf (get_search_results alwaysNetDown).2 = [0, 1, 2]
    ∧ sleepCount (get_search_results alwaysNetDown).2 = 2 := by
  have h := C3_retry_bound alwaysNetDown (fun n _ => rfl)
  exact ⟨h.1, h.2.1, h.2.2.1.trans rfl⟩

/-- C4.  The scraper's output has at most as many entries as input URLs;
the output URLs, in order, are a sublist of the input list (so each entry
carries its original URL string, order is preserved, and failed URLs are
simply omitted with no placeholder); and the whole output is the
URL-by-URL `filterMap` of the independent per-URL scrape — in particular
the result for a concatenation splits, so one URL's retry exhaustion never
affects other URLs. -/
theorem C4_scraper_contract (p : String → Nat → Except String ScrapeResponse)
    (urls : List String) :
    (scrape_competitor_content p urls).length ≤ urls.length
    ∧ ((scrape_competitor_content p urls).map PageData.url).Sublist urls
    ∧ scrape_competitor_content p urls = urls.filterMap (scrapeOne p)
    ∧ (∀ us vs : List String,
        scrape_competitor_content p (us ++ vs)
          = scrape_competitor_content p us ++ scrape_competitor_content p vs) := by
  refine ⟨?_, scrape_urls_sublist p urls, scrape_eq_filterMap p urls, ?_⟩
  · rw [scrape_eq_filterMap]
    exact List.length_filterMap_le _ _
  · intro us vs
    rw [scrape_eq_filterMap, scrape_eq_filterMap, scrape_eq_filterMap,
      List.filterMap_append]

/-- The end-to-end scenario document of the specification. -/
def e2eDoc : String :=
  "Meta title: Uber Clone App | Fast Rides\nMeta description: Build a ride app"

/-- C5.  When a section's start delimiter matches with span ending at `e1`,
the extracted body is exactly the stripped substring between `e1` and the
start `s2` of the matched end delimiter — or the stripped document tail
when the end delimiter matches nowhere; concretely, the end-to-end document
yields a `"Meta Title"` body of exactly `"Uber Clone App | Fast Rides"`. -/
theorem C5_body_extraction (text d1 dd : String) (s1 e1 s2 e2 : Nat)
    (h1 : findDelim text.data d1.data 0 = some (s1, e1))
    (h2 : findDelim text.data dd.data e1 = some (s2, e2)) :
    safe_split text d1 (some dd) = pyStrip ⟨(text.data.take s2).drop e1⟩
    ∧ (∀ t2 : String, findDelim text.data t2.data e1 = none →
        safe_split text d1 (some t2) = pyStrip ⟨text.data.drop e1⟩)
    ∧ safe_split e2eDoc "Meta title:" (some "Meta description:")
        = "Uber Clone App | Fast Rides"
    ∧ (listSections e2eDoc).lookup "Meta Title" = some "Uber Clone App | Fast Rides" := by
  refine ⟨?_, ?_, rfl, rfl⟩
  · simp [safe_split, safe_splitL, h1, h2, pyStrip]
  · intro t2 ht2
    simp [safe_split, safe_splitL, h1, ht2, pyStrip]

/-- C5, witness: the general substring characterization instantiated on the
end-to-end document (start delimiter matched at span (0, 11), end delimiter
at span (40, 57)). -/
theorem C5_body_extraction_witness :
    safe_split e2eDoc "Meta title:" (some "Meta description:")
      = pyStrip ⟨(e2eDoc.data.take 40).drop 11⟩
    ∧ pyStrip ⟨(e2eDoc.data.take 40).drop 11⟩ = "Uber Clone App | Fast Rides" :=
  ⟨(C5_body_extraction e2eDoc "Meta title:" "Meta description:" 0 11 40 57 rfl rfl).1, rfl⟩

/-- C6.  The content analyzer is deterministic; on `"a b c"` it reports a
word count of 3 (the whitespace-split token count); on the empty string it
reports word count 0 with empty commonPhrases and keyTopics lists. -/
theorem C6_analyzer_determinism (x : String) :
    analyze_content noFaults x = analyze_content noFaults x
    ∧ analyze_content noFaults "a b c" = .ok (analyzeResult noFaults "a b c")
    ∧ (analyzeResult noFaults "a b c").map ContentAnalysis.word_count = some 3
    ∧ analyze_content noFaults "" = .ok (analyzeResult noFaults "")
    ∧ (analyzeResult noFaults "").map ContentAnalysis.word_count = some 0
    ∧ (analyzeResult noFaults "").map ContentAnalysis.common_phrases = some []
    ∧ (analyzeResult noFaults "").map ContentAnalysis.key_topics = some [] :=
  ⟨rfl, analyze_content_eq _ _, rfl, analyze_content_eq _ _, rfl, rfl, rfl⟩

/-- C7.  For every input and every assignment of internal faults, the
analyzer returns a value (`isOk`) — no internal exception crosses the
component boundary: a markup-stripping fault degrades the whole analysis to
the empty dict, and faults in the four extraction helpers degrade their
fields to `[]` / empty dict while the rest of the analysis survives. -/
theorem C7_analyzer_never_raises (content : String) (fl : AnalyzerFaults) :
    (analyze_content fl content).isOk = true
    ∧ analyze_content
        { soupFail := true, phrasesFail := false, structFail := false,
          topicsFail := false, elementsFail := false } content = .ok none
    ∧ analyze_content
        { soupFail := false, phrasesFail := true, structFail := true,
          topicsFail := true, elementsFail := true } content
      = .ok (some
        { word_count := (tokenRuns (fun c => !(isPySpace c)) (getTextOf content).data).length,
          common_phrases := [],
          content_structure := none,
          key_topics := [],
          content_elements := none }) := by
  refine ⟨?_, rfl, rfl⟩
  rw [analyze_content_eq]
  rfl

/-- C8.  The stored page content prefers the HTML representation, falls
back to markdown only when the `html` key is absent from the provider
response, and is the empty string when both are absent. -/
theorem C8_content_preference (url h m : String) (md : Option String) :
    (scrapeOne (fun _ _ => .ok { markdown := md, html := some h }) url).map
        PageData.content = some h
    ∧ (scrapeOne (fun _ _ => .ok { markdown := some m, html := none }) url).map
        PageData.content = some m
    ∧ (scrapeOne (fun _ _ => .ok { markdown := none, html := none }) url).map
        PageData.content = some "" := by
  refine ⟨?_, ?_, ?_⟩ <;>
    simp [scrapeOne, scrapeLoop, max_retries, scrapeAttemptOnce, analyze_content_eq,
      contentOf]

/-- C9.  Both entry points pass at most the first 5 organic links to the
scraper (the UI flow's list is a sublist of the batch flow's), and the
scraped URLs are always a sublist — hence a subset — of the top-5 organic
links, for any provider behavior. -/
theorem C9_top5_invariant (organic : List OrganicResult)
    (p : String → Nat → Except String ScrapeResponse) :
    (urls_to_scrape_batch organic).length ≤ 5
    ∧ (urls_to_scrape_ui organic).length ≤ 5
    ∧ (urls_to_scrape_ui organic).Sublist (urls_to_scrape_batch organic)
    ∧ ((scrape_competitor_content p (urls_to_scrape_batch organic)).map PageData.url).Sublist
        ((organic.take 5).map OrganicResult.link)
    ∧ ((scrape_competitor_content p (urls_to_scrape_ui organic)).map PageData.url).Sublist
        ((organic.take 5).map OrganicResult.link) := by
  have hbatch : urls_to_scrape_batch organic = (organic.take 5).map OrganicResult.link := rfl
  have hui : (urls_to_scrape_ui organic).Sublist (urls_to_scrape_batch organic) :=
    List.Sublist.map OrganicResult.link (List.filter_sublist _)
  have hlen : (urls_to_scrape_batch organic).length ≤ 5 := by
    rw [hbatch, List.length_map]
    exact List.length_take_le 5 organic
  refine ⟨hlen, hui.length_le.trans hlen, hui, ?_, ?_⟩
  · exact scrape_urls_sublist p (urls_to_scrape_batch organic)
  · exact (scrape_urls_sublist p (urls_to_scrape_ui organic)).trans hui

/-- Five organic results, the second of which is a YouTube link. -/
def demoOrganic : List OrganicResult :=
  [ ⟨"r1", "https://site1.example.com/a", "s", "d", 1⟩,
    ⟨"r2", "https://www.youtube.com/watch?v=abc", "s", "d", 2⟩,
    ⟨"r3", "https://site3.example.com/c", "s", "d", 3⟩,
    ⟨"r4", "https://site4.example.com/d", "s", "d", 4⟩,
    ⟨"r5", "https://site5.example.com/e", "s", "d", 5⟩ ]

/-- C10.  The UI flow excludes top-5 links whose lower-cased URL contains
one of the four blocked domains (every URL it scrapes passes the
`linkBanned` test negatively), so five available organic results can yield
fewer than five scraped pages; the batch flow applies no such filter — it
takes the top-5 links unconditionally, YouTube links included. -/
theorem C10_domain_filter (organic : List OrganicResult) :
    (∀ u, u ∈ urls_to_scrape_ui organic → linkBanned u = false)
    ∧ urls_to_scrape_batch organic = (organic.take 5).map OrganicResult.link
    ∧ (urls_to_scrape_ui demoOrganic).length = 4
    ∧ (urls_to_scrape_batch demoOrganic).length = 5
    ∧ "https://www.youtube.com/watch?v=abc" ∈ urls_to_scrape_batch demoOrganic
    ∧ "https://www.youtube.com/watch?v=abc" ∉ urls_to_scrape_ui demoOrganic := by
  refine ⟨?_, rfl, rfl, rfl, ?_, ?_⟩
  · intro u hu
    rcases List.mem_map.mp hu with ⟨r, hr, hlink⟩
    have hkeep := (List.mem_filter.mp hr).2
    rw [← hlink]
    simpa using hkeep
  · decide
  · decide

/-- C10, witness: the first demo link survives the filter and indeed
contains no blocked domain. -/
theorem C10_domain_filter_witness :
    linkBanned "https://site1.example.com/a" = false :=
  (C10_domain_filter demoOrganic).1 "https://site1.example.com/a" (by decide)

end LGSpec
